import Mathlib

/-!
Verification of the ActiveCalls tracker (scripts/fetch_active_calls.py and
scripts/discord_alerts.py), shallowly embedded in Lean 4.

A raw API call record is a JSON object; the scripts access it only through
dict.get on the four keys Master_Incident_Number, Online_Description,
Address and Response_Date, so a record is embedded as four optional string
fields (none = key absent).  File system state is passed explicitly, and
every wall-clock reading (datetime.now) is an explicit string or date
parameter.
-/

set_option autoImplicit false

namespace ActiveCalls

/-- One call record as the scripts observe it: the four JSON keys that are
ever read, each possibly absent. -/
structure Call where
  master_Incident_Number : Option String
  online_Description : Option String
  address : Option String
  response_Date : Option String
deriving DecidableEq, Inhabited

/-- Result of Python datetime parsing: the fields of a datetime object that
the scripts use. -/
structure PyDateTime where
  year : Nat
  month : Nat
  day : Nat
  hour : Nat
  minute : Nat
  second : Nat
deriving DecidableEq, Inhabited

/-- Numeric value of a decimal digit character. -/
def digitVal (c : Char) : Nat := c.toNat - 48

/-- Modelled from the stdlib: str.replace('Z', '+00:00') on the character
list of the string (line 70 of fetch_active_calls.py applies it before
datetime.fromisoformat). -/
def replaceZ : List Char → List Char
  | [] => []
  | 'Z' :: rest => '+' :: '0' :: '0' :: ':' :: '0' :: '0' :: replaceZ rest
  | c :: rest => c :: replaceZ rest

/-- Days in a month, with the Gregorian leap-year rule, as Python's
datetime validates. -/
def daysInMonth (year month : Nat) : Nat :=
  if month == 2 then
    if (year % 4 == 0 && year % 100 != 0) || year % 400 == 0 then 29 else 28
  else if month == 4 || month == 6 || month == 9 || month == 11 then 30
  else 31

/-- Modelled from the stdlib: datetime.fromisoformat restricted to the
shapes the API emits (documented at line 69 of fetch_active_calls.py as
"2024-01-15T14:30:00"): YYYY-MM-DDTHH:MM:SS with an optional +HH:MM or
-HH:MM zone offset; anything else fails (Python raises ValueError, the
caller turns that into None). -/
def fromisoformat (s : List Char) : Option PyDateTime :=
  match s with
  | y1 :: y2 :: y3 :: y4 :: '-' :: m1 :: m2 :: '-' :: d1 :: d2 :: 'T' ::
      h1 :: h2 :: ':' :: n1 :: n2 :: ':' :: s1 :: s2 :: rest =>
    if y1.isDigit && y2.isDigit && y3.isDigit && y4.isDigit &&
       m1.isDigit && m2.isDigit && d1.isDigit && d2.isDigit &&
       h1.isDigit && h2.isDigit && n1.isDigit && n2.isDigit &&
       s1.isDigit && s2.isDigit then
      let year := ((digitVal y1 * 10 + digitVal y2) * 10 + digitVal y3) * 10 + digitVal y4
      let month := digitVal m1 * 10 + digitVal m2
      let day := digitVal d1 * 10 + digitVal d2
      let hour := digitVal h1 * 10 + digitVal h2
      let minute := digitVal n1 * 10 + digitVal n2
      let second := digitVal s1 * 10 + digitVal s2
      let offsetOk : Bool :=
        match rest with
        | [] => true
        | sgn :: o1 :: o2 :: ':' :: o3 :: o4 :: [] =>
          (sgn == '+' || sgn == '-') && o1.isDigit && o2.isDigit &&
            o3.isDigit && o4.isDigit &&
            decide (digitVal o1 * 10 + digitVal o2 ≤ 23) &&
            decide (digitVal o3 * 10 + digitVal o4 ≤ 59)
        | _ => false
      if offsetOk ∧ 1 ≤ year ∧ 1 ≤ month ∧ month ≤ 12 ∧ 1 ≤ day ∧
          day ≤ daysInMonth year month ∧ hour ≤ 23 ∧ minute ≤ 59 ∧
          second ≤ 59 then
        some ⟨year, month, day, hour, minute, second⟩
      else none
    else none
  | _ => none

/-- parse_response_date (fetch_active_calls.py lines 66-72): replace 'Z'
with '+00:00', parse as ISO; on failure (ValueError, or AttributeError when
the argument is None) return None. -/
def parse_response_date : Option String → Option PyDateTime
  | none => none
  | some s => fromisoformat (replaceZ s.data)

/-- compare_calls (fetch_active_calls.py lines 75-86): set difference on
Master_Incident_Number (dict.get, so a missing key contributes the None
identifier), then filter each source sequence by membership of its
identifier in the corresponding difference set. -/
def compare_calls (previous_calls current_calls : List Call) :
    List Call × List Call :=
  let prev_ids : List (Option String) :=
    previous_calls.map (fun call => call.master_Incident_Number)
  let curr_ids : List (Option String) :=
    current_calls.map (fun call => call.master_Incident_Number)
  let new_ids : List (Option String) :=
    curr_ids.filter (fun i => decide (i ∉ prev_ids))
  let resolved_ids : List (Option String) :=
    prev_ids.filter (fun i => decide (i ∉ curr_ids))
  let new_calls := current_calls.filter
    (fun c => decide (c.master_Incident_Number ∈ new_ids))
  let resolved_calls := previous_calls.filter
    (fun c => decide (c.master_Incident_Number ∈ resolved_ids))
  (new_calls, resolved_calls)

/-- Zero-padded two-digit decimal rendering, as strftime emits. -/
def twoDigits (n : Nat) : String :=
  if n < 10 then "0" ++ toString n else toString n

/-- Modelled from the stdlib: strftime with format "%I:%M %p" (12-hour
zero-padded clock, minutes, AM/PM), used at line 98 of
fetch_active_calls.py. -/
def strftime_I_M_p (t : PyDateTime) : String :=
  let h12 := if t.hour % 12 == 0 then 12 else t.hour % 12
  let ampm := if t.hour < 12 then "AM" else "PM"
  twoDigits h12 ++ ":" ++ twoDigits t.minute ++ " " ++ ampm

/-- format_call_for_log (fetch_active_calls.py lines 89-100). -/
def format_call_for_log (call : Call) (status : String) : String :=
  let incident_num := call.master_Incident_Number.getD "UNKNOWN"
  let description := call.online_Description.getD "Unknown Call Type"
  let address := call.address.getD "Unknown Location"
  let response_date := call.response_Date.getD ""
  let parsed_time := parse_response_date (some response_date)
  let time_str := match parsed_time with
    | some t => strftime_I_M_p t
    | none => "Unknown Time"
  "[" ++ status ++ "] " ++ incident_num ++ " | " ++ description ++ " | " ++
    address ++ " | Response: " ++ time_str

/-- A line of 80 '=' characters, as produced by the Python '='*80. -/
def eqBar : String := String.mk (List.replicate 80 '=')

/-- The block append_to_log (fetch_active_calls.py lines 103-122) appends
to the historical log for one poll cycle. -/
def log_block (timestamp : String) (new_calls resolved_calls : List Call)
    (total_active : Nat) : String :=
  "\n" ++ eqBar ++ "\n" ++
  "TIMESTAMP: " ++ timestamp ++ "\n" ++
  "TOTAL ACTIVE CALLS: " ++ toString total_active ++ "\n" ++
  eqBar ++ "\n" ++
  (if new_calls ≠ [] then
    "\n--- NEW CALLS (" ++ toString new_calls.length ++ ") ---\n" ++
      String.join (new_calls.map (fun call =>
        format_call_for_log call "NEW" ++ "\n"))
   else "") ++
  (if resolved_calls ≠ [] then
    "\n--- RESOLVED CALLS (" ++ toString resolved_calls.length ++ ") ---\n" ++
      String.join (resolved_calls.map (fun call =>
        format_call_for_log call "RESOLVED" ++ "\n"))
   else "") ++
  (if new_calls = [] ∧ resolved_calls = [] then
    "\nNo changes since last check.\n"
   else "")

/-- append_to_log as a function on the log file's text content. -/
def append_to_log (log : String) (timestamp : String)
    (new_calls resolved_calls : List Call) (total_active : Nat) : String :=
  log ++ log_block timestamp new_calls resolved_calls total_active

/-- One snapshot entry of a daily archive file (fetch_active_calls.py
lines 138-142). -/
structure ArchiveSnapshot where
  timestamp : String
  call_count : Nat
  calls : List Call
deriving DecidableEq, Inhabited

/-- The JSON content of one per-day archive file. -/
structure ArchiveFile where
  date : String
  snapshots : List ArchiveSnapshot
deriving DecidableEq, Inhabited

/-- The archive directory: date string to file content, in creation
order. -/
abbrev ArchiveDir := List (String × ArchiveFile)

/-- Reading the file named by a date, when it exists. -/
def archiveLookup (a : ArchiveDir) (d : String) : Option ArchiveFile :=
  (List.find? (fun kv => kv.1 == d) a).map (fun kv => kv.2)

/-- Writing the file named by a date: overwrite in place, or create. -/
def archiveStore (a : ArchiveDir) (d : String) (f : ArchiveFile) : ArchiveDir :=
  if List.any a (fun kv => kv.1 == d) then
    List.map (fun kv => if kv.1 == d then (d, f) else kv) a
  else a ++ [(d, f)]

/-- archive_daily_data (fetch_active_calls.py lines 125-145): load the
existing file for the run's local date, or start a fresh one; append the
snapshot; write the whole file back. -/
def archive_daily_data (a : ArchiveDir) (calls : List Call)
    (timestamp date_str : String) : ArchiveDir :=
  let archive_data := match archiveLookup a date_str with
    | some f => f
    | none => { date := date_str, snapshots := [] }
  let archive_data := { archive_data with
    snapshots := archive_data.snapshots ++
      [{ timestamp := timestamp, call_count := calls.length, calls := calls }] }
  archiveStore a date_str archive_data

/-- A Python str-keyed counter dict in insertion order. -/
abbrev CountDict := List (String × Nat)

/-- dict.get(k, 0). -/
def dictGet (d : CountDict) (k : String) : Nat :=
  match List.find? (fun kv => kv.1 == k) d with
  | some kv => kv.2
  | none => 0

/-- dict[k] = v: update in place, or append a fresh key. -/
def dictSet (d : CountDict) (k : String) (v : Nat) : CountDict :=
  if List.any d (fun kv => kv.1 == k) then
    List.map (fun kv => if kv.1 == k then (k, v) else kv) d
  else d ++ [(k, v)]

/-- The sum of a counter dict's values. -/
def dsum (d : CountDict) : Nat := (List.map (fun kv => kv.2) d).sum

/-- The key list of a counter dict. -/
def dkeys (d : CountDict) : List String := List.map (fun kv => kv.1) d

/-- The stats.json record (fetch_active_calls.py lines 154-164). -/
structure Stats where
  total_calls_tracked : Nat
  total_resolved : Nat
  call_types : CountDict
  addresses : CountDict
  hourly_distribution : CountDict
  first_tracked : Option String
  last_updated : Option String
  peak_active_calls : Nat
  total_snapshots : Nat
deriving DecidableEq, Inhabited

/-- The default stats record created when stats.json does not exist yet
(fetch_active_calls.py lines 154-164). -/
def defaultStats : Stats where
  total_calls_tracked := 0
  total_resolved := 0
  call_types := []
  addresses := []
  hourly_distribution := (List.range 24).map (fun i => (toString i, 0))
  first_tracked := none
  last_updated := none
  peak_active_calls := 0
  total_snapshots := 0

/-- The loop body of update_stats over new_calls (fetch_active_calls.py
lines 181-194): one description tick, one address tick, and an hour tick
only when the record's Response_Date parses. -/
def track_call (st : Stats) (call : Call) : Stats :=
  let call_type := call.online_Description.getD "Unknown"
  let st := { st with
    call_types := dictSet st.call_types call_type
      (dictGet st.call_types call_type + 1) }
  let address := call.address.getD "Unknown"
  let st := { st with
    addresses := dictSet st.addresses address
      (dictGet st.addresses address + 1) }
  let response_date := call.response_Date.getD ""
  match parse_response_date (some response_date) with
  | some t => { st with
      hourly_distribution := dictSet st.hourly_distribution (toString t.hour)
        (dictGet st.hourly_distribution (toString t.hour) + 1) }
  | none => st

/-- update_stats (fetch_active_calls.py lines 148-199) as a function of
the loaded (or default) prior stats; `timestamp` is the run's
datetime.now reading. -/
def update_stats (stats0 : Stats) (new_calls resolved_calls : List Call)
    (total_active : Nat) (timestamp : String) : Stats :=
  let stats1 := { stats0 with
    total_calls_tracked := stats0.total_calls_tracked + new_calls.length
    total_resolved := stats0.total_resolved + resolved_calls.length
    last_updated := some timestamp
    total_snapshots := stats0.total_snapshots + 1 }
  let stats2 := if stats1.first_tracked = none then
      { stats1 with first_tracked := some timestamp }
    else stats1
  let stats3 := if total_active > stats2.peak_active_calls then
      { stats2 with peak_active_calls := total_active }
    else stats2
  new_calls.foldl track_call stats3

/-- One poll cycle's inputs to update_stats, for reasoning about runs of
the Stats Aggregator. -/
structure RunInput where
  new_calls : List Call
  resolved_calls : List Call
  total_active : Nat
  timestamp : String
deriving DecidableEq, Inhabited

/-- The stats record after a sequence of poll cycles starting from the
default (initial) stats. -/
def run_stats (runs : List RunInput) : Stats :=
  runs.foldl (fun s r =>
    update_stats s r.new_calls r.resolved_calls r.total_active r.timestamp)
    defaultStats

/-- The content of data/current_calls.json (fetch_active_calls.py lines
55-63). -/
structure SnapshotFile where
  calls : List Call
  timestamp : Option String
  count : Nat
deriving DecidableEq, Inhabited

/-- The outcome of the one HTTP GET plus JSON decode, abstracted: a
transport / HTTP-status / JSON-decode failure (all requests.RequestException
subclasses), a JSON array, a JSON object carrying a 'data' key, or any
other JSON top-level shape. -/
inductive ApiResponse where
  | error
  | jsonList (calls : List Call)
  | jsonDictWithData (calls : List Call)
  | jsonOther
deriving DecidableEq, Inhabited

/-- fetch_active_calls (fetch_active_calls.py lines 26-44): normalize the
payload shape on success, return None on any RequestException. -/
def fetch_active_calls : ApiResponse → Option (List Call)
  | .error => none
  | .jsonList calls => some calls
  | .jsonDictWithData calls => some calls
  | .jsonOther => some []

/-- The four persisted files the main pipeline touches; none = the file
does not exist. The historical log is its text content; the archive is
the per-day file map. -/
structure FS where
  current_calls : Option SnapshotFile
  historical_log : Option String
  archive : ArchiveDir
  stats : Option Stats
deriving DecidableEq, Inhabited

/-- load_previous_calls (fetch_active_calls.py lines 47-52), projected to
the calls list that main uses. -/
def load_previous_calls (fs : FS) : List Call :=
  match fs.current_calls with
  | some f => f.calls
  | none => []

/-- The banner written when the historical log file is first created
(fetch_active_calls.py lines 238-242). -/
def log_banner (now_ts : String) : String :=
  "CLEARWATER PD ACTIVE CALLS - HISTORICAL LOG\n" ++
  "Tracking started: " ++ now_ts ++ "\n" ++ eqBar ++ "\n"

/-- main (fetch_active_calls.py lines 227-285) as a state transformer on
the persisted files, returning the new file state and the exit code.
`response` is the HTTP outcome, `now_ts` the run's datetime.now reading
and `date_str` its local calendar date. Directory creation is not file
content and is omitted; the log banner write happens, as in the source,
before the fetch result is inspected. -/
def main_run (response : ApiResponse) (now_ts date_str : String)
    (fs : FS) : FS × Nat :=
  let fs := if fs.historical_log = none then
      { fs with historical_log := some (log_banner now_ts) }
    else fs
  match fetch_active_calls response with
  | none => (fs, 1)
  | some current_calls =>
    let timestamp := now_ts
    let previous_calls := load_previous_calls fs
    let nr := compare_calls previous_calls current_calls
    let new_calls := nr.1
    let resolved_calls := nr.2
    let fs := { fs with
      historical_log := some (append_to_log (fs.historical_log.getD "")
        timestamp new_calls resolved_calls current_calls.length) }
    let fs := { fs with
      current_calls := some ⟨current_calls, some timestamp,
        current_calls.length⟩ }
    let fs := { fs with
      archive := archive_daily_data fs.archive current_calls timestamp date_str }
    let stats0 := fs.stats.getD defaultStats
    let fs := { fs with
      stats := some (update_stats stats0 new_calls resolved_calls
        current_calls.length timestamp) }
    (fs, 0)

/-- Modelled from the stdlib: str.upper() as ASCII uppercasing of the
character list (the configured patterns and the API's text fields are
ASCII). -/
def upperStr (s : String) : String := String.mk (s.data.map Char.toUpper)

/-- Boolean list-prefix test on characters. -/
def isPrefixB : List Char → List Char → Bool
  | [], _ => true
  | _ :: _, [] => false
  | a :: as, b :: bs => a == b && isPrefixB as bs

/-- Modelled from the stdlib: the Python substring test `pat in hay`, on
character lists. -/
def isInfixB (pat : List Char) : List Char → Bool
  | [] => isPrefixB pat []
  | b :: bs => isPrefixB pat (b :: bs) || isInfixB pat bs

/-- One Discord embed as built by discord_alerts.py. -/
structure Alert where
  title : String
  description : String
  color : Nat
deriving DecidableEq, Inhabited

/-- The watched call-type substrings configured at discord_alerts.py
lines 20-26. -/
def ALERT_CALL_TYPES : List String :=
  ["TRAFFIC STOP", "PEDESTRIAN STOP", "SUSPICIOUS PERSON", "SUSPICIOUS VEHICLE"]

/-- The watched address substrings configured at discord_alerts.py lines
28-32 (all entries commented out). -/
def ALERT_ADDRESSES : List String := []

/-- The volume threshold configured at discord_alerts.py line 34. -/
def HIGH_VOLUME_THRESHOLD : Nat := 10

/-- The high-volume alert embed (discord_alerts.py lines 65-70). -/
def volume_alert (count : Nat) : Alert where
  title := "🚨 High Activity: " ++ toString count ++ " Active Calls"
  description := "CPD is handling an unusually high number of calls."
  color := 0xFF0000

/-- The call-type trigger loop for one record (discord_alerts.py lines
78-86): scan the watched list in order against the uppercased
description, append one orange alert on the first hit, then break. -/
def type_rule_alerts (alert_call_types : List String) (call : Call) :
    List Alert :=
  let call_type := upperStr (call.online_Description.getD "")
  let address := call.address.getD ""
  let incident := call.master_Incident_Number.getD ""
  match alert_call_types.find? (fun t => isInfixB t.data call_type.data) with
  | some _ =>
    [{ title := "📍 " ++ call_type,
       description := "**Location:** " ++ address ++ "\n**Incident:** " ++ incident,
       color := 0xFFA500 }]
  | none => []

/-- The address trigger loop for one record (discord_alerts.py lines
88-96). -/
def address_rule_alerts (alert_addresses : List String) (call : Call) :
    List Alert :=
  let call_type := upperStr (call.online_Description.getD "")
  let address := call.address.getD ""
  let incident := call.master_Incident_Number.getD ""
  match alert_addresses.find?
      (fun t => isInfixB (upperStr t).data (upperStr address).data) with
  | some _ =>
    [{ title := "📍 Activity at Watched Location",
       description := "**Type:** " ++ call_type ++ "\n**Location:** " ++
         address ++ "\n**Incident:** " ++ incident,
       color := 0xFFFF00 }]
  | none => []

/-- check_alerts (discord_alerts.py lines 60-98), parameterized by the
configured trigger lists and threshold: the volume alert, if any, then
the per-record alerts in record order. -/
def check_alerts (alert_call_types alert_addresses : List String)
    (threshold : Nat) (current_calls new_calls : List Call) : List Alert :=
  (if current_calls.length ≥ threshold then
    [volume_alert current_calls.length] else []) ++
  new_calls.flatMap (fun call =>
    type_rule_alerts alert_call_types call ++
    address_rule_alerts alert_addresses call)

/-- main of discord_alerts.py (lines 101-122), as the list of alerts it
delivers: nothing without a snapshot file; otherwise check_alerts on the
snapshot's calls (passed as both current and new), truncated to the first
5. -/
def alerts_main (snapshot : Option SnapshotFile) : List Alert :=
  match snapshot with
  | none => []
  | some data =>
    let current_calls := data.calls
    (check_alerts ALERT_CALL_TYPES ALERT_ADDRESSES HIGH_VOLUME_THRESHOLD
      current_calls current_calls).take 5

/-! ## Helper lemmas about the Differ -/

theorem compare_calls_fst_eq (prev curr : List Call) :
    (compare_calls prev curr).1 = curr.filter
      (fun c => decide (∀ p ∈ prev,
        p.master_Incident_Number ≠ c.master_Incident_Number)) := by
  unfold compare_calls
  simp only
  apply List.filter_congr
  intro c hc
  simp only [decide_eq_decide, List.mem_filter, List.mem_map,
    decide_eq_true_eq]
  constructor
  · rintro ⟨-, hnot⟩ p hp hpc
    exact hnot ⟨p, hp, hpc⟩
  · intro h
    refine ⟨⟨c, hc, rfl⟩, ?_⟩
    rintro ⟨p, hp, hpc⟩
    exact h p hp hpc

theorem compare_calls_snd_eq (prev curr : List Call) :
    (compare_calls prev curr).2 = prev.filter
      (fun c => decide (∀ q ∈ curr,
        q.master_Incident_Number ≠ c.master_Incident_Number)) := by
  unfold compare_calls
  simp only
  apply List.filter_congr
  intro c hc
  simp only [decide_eq_decide, List.mem_filter, List.mem_map,
    decide_eq_true_eq]
  constructor
  · rintro ⟨-, hnot⟩ q hq hqc
    exact hnot ⟨q, hq, hqc⟩
  · intro h
    refine ⟨⟨c, hc, rfl⟩, ?_⟩
    rintro ⟨q, hq, hqc⟩
    exact h q hq hqc

/-- C2: the Differ returns as new exactly the current records whose
incident identifier does not occur among the previous records'
identifiers, and as resolved exactly the previous records whose
identifier does not occur among the current records' identifiers; each
output is the order-preserving filter of its source sequence (hence a
sublist of it), not a reordering by identifier. -/
theorem compare_calls_new_resolved_exact (prev curr : List Call) :
    (compare_calls prev curr).1 = curr.filter
      (fun c => decide (∀ p ∈ prev,
        p.master_Incident_Number ≠ c.master_Incident_Number)) ∧
    (compare_calls prev curr).2 = prev.filter
      (fun c => decide (∀ q ∈ curr,
        q.master_Incident_Number ≠ c.master_Incident_Number)) ∧
    (compare_calls prev curr).1.Sublist curr ∧
    (compare_calls prev curr).2.Sublist prev := by
  refine ⟨compare_calls_fst_eq prev curr, compare_calls_snd_eq prev curr,
    ?_, ?_⟩
  · rw [compare_calls_fst_eq]
    exact List.filter_sublist curr
  · rw [compare_calls_snd_eq]
    exact List.filter_sublist prev

/-- C9: the Differ keys records by dict.get of the incident-number field,
so every record lacking the key carries the identifier None; whenever
both the previous and the current sequence contain at least one keyless
record, the None identifier is in neither difference set, hence every
record reported as new or resolved has a present identifier — keyless
records are never reported, even when they describe distinct
incidents. -/
theorem compare_calls_keyless_suppressed (prev curr : List Call)
    (hp : ∃ p ∈ prev, p.master_Incident_Number = none)
    (hc : ∃ c ∈ curr, c.master_Incident_Number = none) :
    ((compare_calls prev curr).1.all
      (fun x => x.master_Incident_Number.isSome) = true) ∧
    ((compare_calls prev curr).2.all
      (fun x => x.master_Incident_Number.isSome) = true) := by
  obtain ⟨p0, hp0, hp0none⟩ := hp
  obtain ⟨c0, hc0, hc0none⟩ := hc
  constructor
  · rw [compare_calls_fst_eq]
    simp only [List.all_eq_true, List.mem_filter, decide_eq_true_eq]
    rintro x ⟨-, hnot⟩
    rcases h : x.master_Incident_Number with _ | v
    · exact absurd (h ▸ hp0none) (fun e => hnot p0 hp0 (hp0none.trans (h ▸ rfl)) )
    · rfl
  · rw [compare_calls_snd_eq]
    simp only [List.all_eq_true, List.mem_filter, decide_eq_true_eq]
    rintro x ⟨-, hnot⟩
    rcases h : x.master_Incident_Number with _ | v
    · exact absurd (h ▸ hc0none) (fun e => hnot c0 hc0 (hc0none.trans (h ▸ rfl)) )
    · rfl

/-- C9 witness: previous and current each hold one keyless record, the
two records describing different incidents; neither output reports a
keyless record. -/
theorem compare_calls_keyless_suppressed_witness :
    (((compare_calls [⟨none, some "FIRE", some "1 MAIN ST", none⟩]
        [⟨none, some "ROBBERY", some "2 OAK AVE", none⟩]).1.all
      (fun x => x.master_Incident_Number.isSome) = true) ∧
    ((compare_calls [⟨none, some "FIRE", some "1 MAIN ST", none⟩]
        [⟨none, some "ROBBERY", some "2 OAK AVE", none⟩]).2.all
      (fun x => x.master_Incident_Number.isSome) = true)) :=
  compare_calls_keyless_suppressed _ _
    ⟨⟨none, some "FIRE", some "1 MAIN ST", none⟩, by simp⟩
    ⟨⟨none, some "ROBBERY", some "2 OAK AVE", none⟩, by simp⟩

/-! ## Helper lemmas about the Stats Aggregator -/

theorem track_call_fields (st : Stats) (c : Call) :
    (track_call st c).total_calls_tracked = st.total_calls_tracked ∧
    (track_call st c).total_resolved = st.total_resolved ∧
    (track_call st c).total_snapshots = st.total_snapshots ∧
    (track_call st c).last_updated = st.last_updated ∧
    (track_call st c).first_tracked = st.first_tracked ∧
    (track_call st c).peak_active_calls = st.peak_active_calls := by
  unfold track_call
  rcases h : parse_response_date (some (c.response_Date.getD "")) with _ | t <;>
    simp [h]

theorem foldl_track_call_fields (calls : List Call) (st : Stats) :
    (calls.foldl track_call st).total_calls_tracked = st.total_calls_tracked ∧
    (calls.foldl track_call st).total_resolved = st.total_resolved ∧
    (calls.foldl track_call st).total_snapshots = st.total_snapshots ∧
    (calls.foldl track_call st).last_updated = st.last_updated ∧
    (calls.foldl track_call st).first_tracked = st.first_tracked ∧
    (calls.foldl track_call st).peak_active_calls = st.peak_active_calls := by
  induction calls generalizing st with
  | nil => simp
  | cons c cs ih =>
    obtain ⟨i1, i2, i3, i4, i5, i6⟩ := ih (track_call st c)
    obtain ⟨t1, t2, t3, t4, t5, t6⟩ := track_call_fields st c
    simp only [List.foldl_cons]
    exact ⟨i1.trans t1, i2.trans t2, i3.trans t3, i4.trans t4,
      i5.trans t5, i6.trans t6⟩

/-- C4: one Stats Aggregator run adds the new-record count to
total_calls_tracked, the resolved-record count to total_resolved, one to
total_snapshots, stamps last_updated with the current instant, and sets
first_tracked to the current instant exactly when it was previously
unset, leaving it unchanged otherwise. -/
theorem update_stats_counters (s : Stats) (new_calls resolved_calls : List Call)
    (total_active : Nat) (ts : String) :
    (update_stats s new_calls resolved_calls total_active ts).total_calls_tracked
      = s.total_calls_tracked + new_calls.length ∧
    (update_stats s new_calls resolved_calls total_active ts).total_resolved
      = s.total_resolved + resolved_calls.length ∧
    (update_stats s new_calls resolved_calls total_active ts).total_snapshots
      = s.total_snapshots + 1 ∧
    (update_stats s new_calls resolved_calls total_active ts).last_updated
      = some ts ∧
    (update_stats s new_calls resolved_calls total_active ts).first_tracked
      = (if s.first_tracked = none then some ts else s.first_tracked) := by
  unfold update_stats
  simp only
  refine ⟨?_, ?_, ?_, ?_, ?_⟩
  · rw [(foldl_track_call_fields new_calls _).1]
    split_ifs <;> rfl
  · rw [(foldl_track_call_fields new_calls _).2.1]
    split_ifs <;> rfl
  · rw [(foldl_track_call_fields new_calls _).2.2.1]
    split_ifs <;> rfl
  · rw [(foldl_track_call_fields new_calls _).2.2.2.1]
    split_ifs <;> rfl
  · rw [(foldl_track_call_fields new_calls _).2.2.2.2.1]
    split_ifs <;> rfl

theorem update_stats_peak (s : Stats) (n r : List Call) (total : Nat)
    (ts : String) :
    (update_stats s n r total ts).peak_active_calls
      = max s.peak_active_calls total := by
  unfold update_stats
  simp only
  rw [(foldl_track_call_fields n _).2.2.2.2.2]
  by_cases h1 : s.first_tracked = none <;>
    simp only [h1, if_true, if_false, reduceIte] <;>
    by_cases h2 : total > s.peak_active_calls <;>
    simp [h2, Nat.max_def] <;> split_ifs <;> omega

theorem run_stats_peak_aux (runs : List RunInput) : ∀ s : Stats,
    ((runs.foldl (fun st r =>
      update_stats st r.new_calls r.resolved_calls r.total_active r.timestamp)
      s).peak_active_calls)
    = runs.foldl (fun a r => max a r.total_active) s.peak_active_calls := by
  induction runs with
  | nil => intro s; rfl
  | cons r rs ih =>
    intro s
    simp only [List.foldl_cons]
    rw [ih, update_stats_peak]

theorem le_foldl_max_runs (more : List RunInput) : ∀ a : Nat,
    a ≤ more.foldl (fun a r => max a r.total_active) a := by
  induction more with
  | nil => intro a; exact le_refl a
  | cons r rs ih =>
    intro a
    simp only [List.foldl_cons]
    exact le_trans (le_max_left a r.total_active) (ih _)

/-- C3: starting from the initial stats, after any sequence of poll
cycles peak_active_calls equals the running maximum of the per-run
active-call counts (the fold of max over them, from the initial 0), and
extending a run sequence by further cycles never decreases it. -/
theorem peak_active_calls_is_running_max :
    (∀ runs : List RunInput, (run_stats runs).peak_active_calls =
      (runs.map (fun r => r.total_active)).foldl max 0) ∧
    (∀ runs more : List RunInput,
      (run_stats runs).peak_active_calls ≤
        (run_stats (runs ++ more)).peak_active_calls) := by
  constructor
  · intro runs
    unfold run_stats
    rw [run_stats_peak_aux, List.foldl_map]
    rfl
  · intro runs more
    unfold run_stats
    have h := run_stats_peak_aux more
      (List.foldl (fun s r =>
        update_stats s r.new_calls r.resolved_calls r.total_active r.timestamp)
        defaultStats runs)
    rw [List.foldl_append, h]
    exact le_foldl_max_runs more _

/-! ## Counter-dict lemmas -/

theorem dictGet_cons (a : String × Nat) (t : CountDict) (k : String) :
    dictGet (a :: t) k = if a.1 = k then a.2 else dictGet t k := by
  by_cases h : a.1 = k
  · simp [dictGet, List.find?, h]
  · have hb : (a.1 == k) = false := beq_eq_false_iff_ne.2 h
    simp [dictGet, List.find?, h, hb]

theorem mem_dkeys_iff_any (d : CountDict) (k : String) :
    (List.any d (fun kv => kv.1 == k) = true) ↔ k ∈ dkeys d := by
  rw [List.any_eq_true]
  unfold dkeys
  rw [List.mem_map]
  constructor
  · rintro ⟨kv, hkv, hb⟩
    exact ⟨kv, hkv, eq_of_beq hb⟩
  · rintro ⟨kv, hkv, he⟩
    exact ⟨kv, hkv, beq_iff_eq.2 he⟩

theorem dictGet_eq_zero_of_not_mem (d : CountDict) (k : String)
    (h : k ∉ dkeys d) : dictGet d k = 0 := by
  unfold dictGet
  rw [List.find?_eq_none.2]
  intro kv hkv hbeq
  exact h ((mem_dkeys_iff_any d k).1 (List.any_eq_true.2 ⟨kv, hkv, hbeq⟩))

theorem dkeys_cons (a : String × Nat) (t : CountDict) :
    dkeys (a :: t) = a.1 :: dkeys t := rfl

theorem dictSet_map_id (t : CountDict) (k : String) (v : Nat)
    (h : k ∉ dkeys t) :
    List.map (fun kv => if kv.1 == k then (k, v) else kv) t = t := by
  induction t with
  | nil => rfl
  | cons a t ih =>
    rw [dkeys_cons, List.mem_cons] at h
    push_neg at h
    have ha : (a.1 == k) = false := beq_eq_false_iff_ne.2 (fun e => h.1 e.symm)
    simp only [List.map_cons, ha, Bool.false_eq_true, if_false]
    rw [ih h.2]

theorem dictSet_cons_ne (a : String × Nat) (t : CountDict) (k : String)
    (v : Nat) (h : ¬ a.1 = k) :
    dictSet (a :: t) k v = a :: dictSet t k v := by
  by_cases h2 : List.any t (fun kv => kv.1 == k) <;>
    simp [dictSet, List.any_cons, h, h2]

theorem dictGet_dictSet_self (d : CountDict) (k : String) (v : Nat) :
    dictGet (dictSet d k v) k = v := by
  induction d with
  | nil => simp [dictGet, dictSet, List.find?]
  | cons a t ih =>
    by_cases h : a.1 = k
    · have any_true : List.any (a :: t) (fun kv => kv.1 == k) = true := by
        simp [List.any_cons, h]
      simp only [dictSet, any_true, if_true, List.map_cons, beq_iff_eq, h,
        reduceIte]
      rw [dictGet_cons]
      simp
    · rw [dictSet_cons_ne a t k v h, dictGet_cons]
      simp [h, ih]

theorem dkeys_dictSet (d : CountDict) (k : String) (v : Nat) :
    dkeys (dictSet d k v) =
      if k ∈ dkeys d then dkeys d else dkeys d ++ [k] := by
  by_cases h : k ∈ dkeys d
  · rw [if_pos h]
    unfold dictSet
    rw [if_pos ((mem_dkeys_iff_any d k).2 h)]
    unfold dkeys
    rw [List.map_map]
    apply List.map_congr_left
    intro kv _
    by_cases hk : kv.1 = k
    · simp [Function.comp_apply, hk]
    · simp [Function.comp_apply, hk]
  · rw [if_neg h]
    unfold dictSet
    rw [if_neg (fun hh => h ((mem_dkeys_iff_any d k).1 hh))]
    simp [dkeys]

theorem dkeys_nodup_dictSet (d : CountDict) (k : String) (v : Nat)
    (h : (dkeys d).Nodup) : (dkeys (dictSet d k v)).Nodup := by
  rw [dkeys_dictSet]
  by_cases hm : k ∈ dkeys d
  · simpa [hm] using h
  · simp [hm, List.nodup_append, h]

theorem dsum_cons (a : String × Nat) (t : CountDict) :
    dsum (a :: t) = a.2 + dsum t := by
  simp [dsum]

theorem dsum_dictSet_incr (d : CountDict) (k : String)
    (hnd : (dkeys d).Nodup) :
    dsum (dictSet d k (dictGet d k + 1)) = dsum d + 1 := by
  induction d with
  | nil => simp [dictGet, dictSet, dsum, List.find?]
  | cons a t ih =>
    rw [dkeys_cons, List.nodup_cons] at hnd
    obtain ⟨ha_not, hnd_t⟩ := hnd
    by_cases h : a.1 = k
    · have hknott : k ∉ dkeys t := h ▸ ha_not
      have any_true : List.any (a :: t) (fun kv => kv.1 == k) = true := by
        simp [List.any_cons, h]
      have hb : (a.1 == k) = true := beq_iff_eq.2 h
      rw [dictGet_cons, if_pos h]
      simp only [dictSet, any_true, if_true, List.map_cons, hb, reduceIte]
      rw [dictSet_map_id t k (a.2 + 1) hknott, dsum_cons, dsum_cons]
      omega
    · rw [dictGet_cons, if_neg h, dictSet_cons_ne a t k _ h, dsum_cons,
        dsum_cons, ih hnd_t]
      omega

/-! ## C5: unparseable per-record timestamps -/

theorem update_stats_hourly_single (st : Stats) (call : Call)
    (resolved : List Call) (total : Nat) (ts : String) :
    (update_stats st [call] resolved total ts).hourly_distribution
      = (track_call st call).hourly_distribution := by
  unfold update_stats
  simp only [List.foldl_cons, List.foldl_nil]
  unfold track_call
  rcases h : parse_response_date (some (call.response_Date.getD "")) with _ | t <;>
    simp only [h] <;> split_ifs <;> rfl

/-- C5: a new record whose Response_Date string fails to parse is
rendered with "Unknown Time" in the log line, leaves the hourly histogram
untouched (both in the per-record step and in a full aggregator run on
that record), yet still adds exactly one to its description tally and one
to its address tally; all functions involved are total, so the pipeline
cannot abort on such a record. -/
theorem unparseable_timestamp_degrades (st : Stats) (call : Call)
    (status ts : String) (resolved : List Call) (total : Nat)
    (h : parse_response_date (some (call.response_Date.getD "")) = none) :
    format_call_for_log call status =
      "[" ++ status ++ "] " ++ call.master_Incident_Number.getD "UNKNOWN" ++
      " | " ++ call.online_Description.getD "Unknown Call Type" ++ " | " ++
      call.address.getD "Unknown Location" ++ " | Response: Unknown Time" ∧
    (track_call st call).hourly_distribution = st.hourly_distribution ∧
    (update_stats st [call] resolved total ts).hourly_distribution
      = st.hourly_distribution ∧
    dictGet (track_call st call).call_types
        (call.online_Description.getD "Unknown")
      = dictGet st.call_types (call.online_Description.getD "Unknown") + 1 ∧
    dictGet (track_call st call).addresses (call.address.getD "Unknown")
      = dictGet st.addresses (call.address.getD "Unknown") + 1 := by
  have htrack : (track_call st call).hourly_distribution
      = st.hourly_distribution := by
    unfold track_call
    simp only [h]
  refine ⟨?_, htrack, ?_, ?_, ?_⟩
  · unfold format_call_for_log
    simp only [h]
    rw [String.append_assoc]
    congr 1
  · rw [update_stats_hourly_single]
    unfold track_call
    simp only [h]
  · unfold track_call
    simp only [h]
    exact dictGet_dictSet_self _ _ _
  · unfold track_call
    simp only [h]
    exact dictGet_dictSet_self _ _ _

/-- C5 witness: the spec's example record with Response_Date
"not-a-date", run against the default stats. -/
theorem unparseable_timestamp_degrades_witness :
    parse_response_date
      (some ((Call.mk (some "24-001") (some "CRASH") (some "5 ELM ST")
        (some "not-a-date")).response_Date.getD "")) = none ∧
    (format_call_for_log
        (Call.mk (some "24-001") (some "CRASH") (some "5 ELM ST")
          (some "not-a-date")) "NEW" =
      "[" ++ "NEW" ++ "] " ++
        (Call.mk (some "24-001") (some "CRASH") (some "5 ELM ST")
          (some "not-a-date")).master_Incident_Number.getD "UNKNOWN" ++
      " | " ++ (Call.mk (some "24-001") (some "CRASH") (some "5 ELM ST")
          (some "not-a-date")).online_Description.getD "Unknown Call Type" ++
      " | " ++ (Call.mk (some "24-001") (some "CRASH") (some "5 ELM ST")
          (some "not-a-date")).address.getD "Unknown Location" ++
      " | Response: Unknown Time" ∧
    (track_call defaultStats
        (Call.mk (some "24-001") (some "CRASH") (some "5 ELM ST")
          (some "not-a-date"))).hourly_distribution
      = defaultStats.hourly_distribution ∧
    (update_stats defaultStats
        [Call.mk (some "24-001") (some "CRASH") (some "5 ELM ST")
          (some "not-a-date")] [] 1 "T").hourly_distribution
      = defaultStats.hourly_distribution ∧
    dictGet (track_call defaultStats
        (Call.mk (some "24-001") (some "CRASH") (some "5 ELM ST")
          (some "not-a-date"))).call_types
        ((Call.mk (some "24-001") (some "CRASH") (some "5 ELM ST")
          (some "not-a-date")).online_Description.getD "Unknown")
      = dictGet defaultStats.call_types
          ((Call.mk (some "24-001") (some "CRASH") (some "5 ELM ST")
            (some "not-a-date")).online_Description.getD "Unknown") + 1 ∧
    dictGet (track_call defaultStats
        (Call.mk (some "24-001") (some "CRASH") (some "5 ELM ST")
          (some "not-a-date"))).addresses
        ((Call.mk (some "24-001") (some "CRASH") (some "5 ELM ST")
          (some "not-a-date")).address.getD "Unknown")
      = dictGet defaultStats.addresses
          ((Call.mk (some "24-001") (some "CRASH") (some "5 ELM ST")
            (some "not-a-date")).address.getD "Unknown") + 1) :=
  ⟨by decide,
   unparseable_timestamp_degrades defaultStats
     (Call.mk (some "24-001") (some "CRASH") (some "5 ELM ST")
       (some "not-a-date")) "NEW" "T" [] 1 (by decide)⟩

/-! ## C10: frequency-table sums versus total_calls_tracked -/

/-- The inductive invariant of the stats record: distinct dict keys, both
frequency-table sums equal to total_calls_tracked, hourly sum at most
total_calls_tracked. -/
def statsInv (s : Stats) : Prop :=
  (dkeys s.call_types).Nodup ∧ (dkeys s.addresses).Nodup ∧
  (dkeys s.hourly_distribution).Nodup ∧
  dsum s.call_types = s.total_calls_tracked ∧
  dsum s.addresses = s.total_calls_tracked ∧
  dsum s.hourly_distribution ≤ s.total_calls_tracked

theorem track_call_sums (st : Stats) (c : Call)
    (h1 : (dkeys st.call_types).Nodup) (h2 : (dkeys st.addresses).Nodup)
    (h3 : (dkeys st.hourly_distribution).Nodup) :
    (dkeys (track_call st c).call_types).Nodup ∧
    (dkeys (track_call st c).addresses).Nodup ∧
    (dkeys (track_call st c).hourly_distribution).Nodup ∧
    dsum (track_call st c).call_types = dsum st.call_types + 1 ∧
    dsum (track_call st c).addresses = dsum st.addresses + 1 ∧
    dsum (track_call st c).hourly_distribution
      ≤ dsum st.hourly_distribution + 1 := by
  unfold track_call
  rcases hp : parse_response_date (some (c.response_Date.getD "")) with _ | t <;>
    simp only [hp]
  · exact ⟨dkeys_nodup_dictSet _ _ _ h1, dkeys_nodup_dictSet _ _ _ h2, h3,
      dsum_dictSet_incr _ _ h1, dsum_dictSet_incr _ _ h2, Nat.le_succ _⟩
  · refine ⟨dkeys_nodup_dictSet _ _ _ h1, dkeys_nodup_dictSet _ _ _ h2,
      dkeys_nodup_dictSet _ _ _ h3,
      dsum_dictSet_incr _ _ h1, dsum_dictSet_incr _ _ h2, ?_⟩
    rw [dsum_dictSet_incr _ _ h3]

theorem foldl_track_call_sums (calls : List Call) : ∀ st : Stats,
    (dkeys st.call_types).Nodup → (dkeys st.addresses).Nodup →
    (dkeys st.hourly_distribution).Nodup →
    (dkeys (calls.foldl track_call st).call_types).Nodup ∧
    (dkeys (calls.foldl track_call st).addresses).Nodup ∧
    (dkeys (calls.foldl track_call st).hourly_distribution).Nodup ∧
    dsum (calls.foldl track_call st).call_types
      = dsum st.call_types + calls.length ∧
    dsum (calls.foldl track_call st).addresses
      = dsum st.addresses + calls.length ∧
    dsum (calls.foldl track_call st).hourly_distribution
      ≤ dsum st.hourly_distribution + calls.length := by
  induction calls with
  | nil =>
    intro st h1 h2 h3
    exact ⟨h1, h2, h3, by simp, by simp, by simp⟩
  | cons c cs ih =>
    intro st h1 h2 h3
    obtain ⟨t1, t2, t3, t4, t5, t6⟩ := track_call_sums st c h1 h2 h3
    obtain ⟨f1, f2, f3, f4, f5, f6⟩ := ih (track_call st c) t1 t2 t3
    simp only [List.foldl_cons, List.length_cons]
    refine ⟨f1, f2, f3, ?_, ?_, ?_⟩
    · rw [f4, t4]; omega
    · rw [f5, t5]; omega
    · calc dsum ((cs.foldl track_call (track_call st c)).hourly_distribution)
          ≤ dsum (track_call st c).hourly_distribution + cs.length := f6
        _ ≤ dsum st.hourly_distribution + (cs.length + 1) := by omega

theorem update_stats_pre_fields (s : Stats) (new_calls resolved_calls : List Call)
    (total_active : Nat) (ts : String) :
    ∃ st3 : Stats, update_stats s new_calls resolved_calls total_active ts
        = new_calls.foldl track_call st3 ∧
      st3.call_types = s.call_types ∧ st3.addresses = s.addresses ∧
      st3.hourly_distribution = s.hourly_distribution ∧
      st3.total_calls_tracked = s.total_calls_tracked + new_calls.length := by
  unfold update_stats
  simp only
  refine ⟨_, rfl, ?_, ?_, ?_, ?_⟩ <;> split_ifs <;> rfl

theorem update_stats_inv (s : Stats) (new_calls resolved_calls : List Call)
    (total_active : Nat) (ts : String) (h : statsInv s) :
    statsInv (update_stats s new_calls resolved_calls total_active ts) := by
  obtain ⟨h1, h2, h3, h4, h5, h6⟩ := h
  obtain ⟨st3, heq, e1, e2, e3, e4⟩ :=
    update_stats_pre_fields s new_calls resolved_calls total_active ts
  rw [heq]
  obtain ⟨f1, f2, f3, f4, f5, f6⟩ := foldl_track_call_sums new_calls st3
    (e1 ▸ h1) (e2 ▸ h2) (e3 ▸ h3)
  have htct := (foldl_track_call_fields new_calls st3).1
  refine ⟨f1, f2, f3, ?_, ?_, ?_⟩
  · rw [f4, e1, h4, htct, e4]
  · rw [f5, e2, h5, htct, e4]
  · rw [htct, e4]
    calc dsum ((new_calls.foldl track_call st3).hourly_distribution)
        ≤ dsum st3.hourly_distribution + new_calls.length := f6
      _ ≤ s.total_calls_tracked + new_calls.length := by rw [e3]; omega

theorem statsInv_default : statsInv defaultStats := by
  unfold statsInv defaultStats dkeys dsum
  decide

theorem run_stats_inv (runs : List RunInput) : statsInv (run_stats runs) := by
  unfold run_stats
  have h : ∀ s : Stats, statsInv s → statsInv (runs.foldl (fun st r =>
      update_stats st r.new_calls r.resolved_calls r.total_active r.timestamp)
      s) := by
    induction runs with
    | nil => intro s hs; exact hs
    | cons r rs ih =>
      intro s hs
      simp only [List.foldl_cons]
      exact ih _ (update_stats_inv _ _ _ _ _ hs)
  exact h defaultStats statsInv_default

/-- C10: starting from the default stats record, after any sequence of
aggregator runs the sum of the per-description counts and the sum of the
per-address counts both equal total_calls_tracked, and the sum of the
hourly-histogram buckets is at most total_calls_tracked. -/
theorem stats_sums_invariant (runs : List RunInput) :
    dsum (run_stats runs).call_types = (run_stats runs).total_calls_tracked ∧
    dsum (run_stats runs).addresses = (run_stats runs).total_calls_tracked ∧
    dsum (run_stats runs).hourly_distribution
      ≤ (run_stats runs).total_calls_tracked := by
  obtain ⟨-, -, -, h4, h5, h6⟩ := run_stats_inv runs
  exact ⟨h4, h5, h6⟩

/-! ## C8: the Archiver -/

/-- The date keys (file names) present in the archive directory. -/
def akeys (a : ArchiveDir) : List String := List.map (fun kv => kv.1) a

theorem archiveLookup_cons (kv : String × ArchiveFile) (t : ArchiveDir)
    (d : String) :
    archiveLookup (kv :: t) d =
      if kv.1 = d then some kv.2 else archiveLookup t d := by
  by_cases h : kv.1 = d
  · simp [archiveLookup, List.find?, h]
  · have hb : (kv.1 == d) = false := beq_eq_false_iff_ne.2 h
    simp [archiveLookup, List.find?, h, hb]

theorem mem_akeys_iff_any (a : ArchiveDir) (d : String) :
    (List.any a (fun kv => kv.1 == d) = true) ↔ d ∈ akeys a := by
  rw [List.any_eq_true]
  unfold akeys
  rw [List.mem_map]
  constructor
  · rintro ⟨kv, hkv, hb⟩
    exact ⟨kv, hkv, eq_of_beq hb⟩
  · rintro ⟨kv, hkv, he⟩
    exact ⟨kv, hkv, beq_iff_eq.2 he⟩

theorem archiveLookup_eq_none_of_not_mem (a : ArchiveDir) (d : String)
    (h : d ∉ akeys a) : archiveLookup a d = none := by
  unfold archiveLookup
  rw [List.find?_eq_none.2]
  · rfl
  · intro kv hkv hbeq
    exact h ((mem_akeys_iff_any a d).1 (List.any_eq_true.2 ⟨kv, hkv, hbeq⟩))

theorem archiveStore_cons_ne (kv : String × ArchiveFile) (t : ArchiveDir)
    (d : String) (f : ArchiveFile) (h : ¬ kv.1 = d) :
    archiveStore (kv :: t) d f = kv :: archiveStore t d f := by
  by_cases h2 : List.any t (fun kv => kv.1 == d) <;>
    simp [archiveStore, List.any_cons, h, h2]

theorem archiveStore_lookup_self (a : ArchiveDir) (d : String)
    (f : ArchiveFile) : archiveLookup (archiveStore a d f) d = some f := by
  induction a with
  | nil => simp [archiveLookup, archiveStore, List.find?]
  | cons kv t ih =>
    by_cases h : kv.1 = d
    · have any_true : List.any (kv :: t) (fun kv => kv.1 == d) = true := by
        simp [List.any_cons, h]
      simp only [archiveStore, any_true, if_true, List.map_cons, beq_iff_eq,
        h, reduceIte]
      rw [archiveLookup_cons]
      simp
    · rw [archiveStore_cons_ne kv t d f h, archiveLookup_cons]
      simp [h, ih]

theorem akeys_archiveStore (a : ArchiveDir) (d : String) (f : ArchiveFile) :
    akeys (archiveStore a d f) =
      if d ∈ akeys a then akeys a else akeys a ++ [d] := by
  by_cases h : d ∈ akeys a
  · rw [if_pos h]
    unfold archiveStore
    rw [if_pos ((mem_akeys_iff_any a d).2 h)]
    unfold akeys
    rw [List.map_map]
    apply List.map_congr_left
    intro kv _
    by_cases hk : kv.1 = d
    · simp [Function.comp_apply, hk]
    · simp [Function.comp_apply, hk]
  · rw [if_neg h]
    unfold archiveStore
    rw [if_neg (fun hh => h ((mem_akeys_iff_any a d).1 hh))]
    simp [akeys]

theorem archive_daily_data_eq_store (a : ArchiveDir) (calls : List Call)
    (ts d : String) :
    archive_daily_data a calls ts d =
      archiveStore a d
        { date := ((archiveLookup a d).getD ⟨d, []⟩).date,
          snapshots := ((archiveLookup a d).getD ⟨d, []⟩).snapshots ++
            [⟨ts, calls.length, calls⟩] } := by
  unfold archive_daily_data
  rcases archiveLookup a d with _ | f <;> rfl

theorem mem_akeys_archiveStore_self (a : ArchiveDir) (d : String)
    (f : ArchiveFile) : d ∈ akeys (archiveStore a d f) := by
  rw [akeys_archiveStore]
  by_cases h : d ∈ akeys a
  · simp [h]
  · simp [h]

/-- C8: archiving twice on the same local date appends the two snapshot
entries, in run order, to the one file under that date key — the second
run creates no new file — while the first run on a date absent from the
archive starts that date's file with exactly the one fresh snapshot and
no records carried over from any other day. -/
theorem archive_same_day_appends (a : ArchiveDir) (c1 c2 : List Call)
    (t1 t2 d : String) :
    archiveLookup (archive_daily_data (archive_daily_data a c1 t1 d) c2 t2 d) d
      = some { date := ((archiveLookup a d).getD ⟨d, []⟩).date,
               snapshots := ((archiveLookup a d).getD ⟨d, []⟩).snapshots ++
                 [⟨t1, c1.length, c1⟩, ⟨t2, c2.length, c2⟩] } ∧
    akeys (archive_daily_data (archive_daily_data a c1 t1 d) c2 t2 d)
      = akeys (archive_daily_data a c1 t1 d) ∧
    (d ∉ akeys a →
      archiveLookup (archive_daily_data a c1 t1 d) d
        = some { date := d, snapshots := [⟨t1, c1.length, c1⟩] }) := by
  have h1 : archiveLookup (archive_daily_data a c1 t1 d) d
      = some { date := ((archiveLookup a d).getD ⟨d, []⟩).date,
               snapshots := ((archiveLookup a d).getD ⟨d, []⟩).snapshots ++
                 [⟨t1, c1.length, c1⟩] } := by
    rw [archive_daily_data_eq_store, archiveStore_lookup_self]
  refine ⟨?_, ?_, ?_⟩
  · rw [archive_daily_data_eq_store (archive_daily_data a c1 t1 d), h1,
      archiveStore_lookup_self]
    simp
  · rw [archive_daily_data_eq_store (archive_daily_data a c1 t1 d),
      akeys_archiveStore, if_pos]
    rw [archive_daily_data_eq_store a]
    exact mem_akeys_archiveStore_self a d _
  · intro hnot
    rw [archive_daily_data_eq_store, archiveLookup_eq_none_of_not_mem a d hnot,
      archiveStore_lookup_self]
    rfl

/-- C8 witness: the fresh-date conjunct instantiated at an empty archive
directory. -/
theorem archive_same_day_appends_witness :
    ("2024-01-01" ∉ akeys ([] : ArchiveDir)) ∧
    archiveLookup (archive_daily_data ([] : ArchiveDir) [] "t1" "2024-01-01")
        "2024-01-01"
      = some { date := "2024-01-01",
               snapshots := [⟨"t1", ([] : List Call).length, []⟩] } :=
  ⟨by decide,
   (archive_same_day_appends [] [] [] "t1" "t2" "2024-01-01").2.2 (by decide)⟩

/-! ## C6 and C7: the Alert Evaluator -/

theorem alert_call_types_upper :
    ∀ t ∈ ALERT_CALL_TYPES, upperStr t = t := by decide

theorem type_rule_alerts_len (act : List String) (call : Call) :
    (type_rule_alerts act call).length ≤ 1 := by
  unfold type_rule_alerts
  rcases hf : act.find? (fun t =>
      isInfixB t.data (upperStr (call.online_Description.getD "")).data) with
    _ | pat <;> simp [hf]

/-- C6: with the configured watched-type list, the type rule fires for a
record exactly when its description contains, case-insensitively, at
least one watched substring (the scan takes the first matching substring
in configured-list order and stops), and it never emits more than one
alert for a record. -/
theorem type_rule_fires_iff (call : Call) :
    ((type_rule_alerts ALERT_CALL_TYPES call ≠ []) ↔
      ∃ pat ∈ ALERT_CALL_TYPES,
        isInfixB (upperStr pat).data
          (upperStr (call.online_Description.getD "")).data = true) ∧
    (type_rule_alerts ALERT_CALL_TYPES call).length ≤ 1 := by
  refine ⟨?_, type_rule_alerts_len _ _⟩
  unfold type_rule_alerts
  rcases hf : ALERT_CALL_TYPES.find? (fun t =>
      isInfixB t.data (upperStr (call.online_Description.getD "")).data) with
    _ | pat <;> simp only [hf]
  · simp only [ne_eq, not_true_eq_false, false_iff, not_exists]
    rintro pat ⟨hpat, hinf⟩
    have hnone := List.find?_eq_none.1 hf pat hpat
    rw [alert_call_types_upper pat hpat] at hinf
    exact hnone hinf
  · constructor
    · intro _
      have hmem := List.mem_of_find?_eq_some hf
      have hp := List.find?_some hf
      refine ⟨pat, hmem, ?_⟩
      rw [alert_call_types_upper pat hmem]
      exact hp
    · intro _
      simp

theorem type_rule_alerts_color (act : List String) (c : Call) :
    ∀ al ∈ type_rule_alerts act c, al.color = 0xFFA500 := by
  unfold type_rule_alerts
  rcases hf : act.find? (fun t =>
      isInfixB t.data (upperStr (c.online_Description.getD "")).data) with
    _ | pat <;> simp [hf]

theorem address_rule_alerts_color (aad : List String) (c : Call) :
    ∀ al ∈ address_rule_alerts aad c, al.color = 0xFFFF00 := by
  unfold address_rule_alerts
  rcases hf : aad.find? (fun t =>
      isInfixB (upperStr t).data (upperStr (c.address.getD "")).data) with
    _ | pat <;> simp [hf]

theorem record_alert_ne_volume (act aad : List String) (c : Call) (n : Nat)
    (al : Alert)
    (h : al ∈ type_rule_alerts act c ++ address_rule_alerts aad c) :
    ¬ al = volume_alert n := by
  intro e
  rcases List.mem_append.1 h with h1 | h2
  · have hc := type_rule_alerts_color act c al h1
    rw [e] at hc
    simp [volume_alert] at hc
  · have hc := address_rule_alerts_color aad c al h2
    rw [e] at hc
    simp [volume_alert] at hc

theorem check_alerts_volume_count (act aad : List String) (threshold : Nat)
    (curr new_calls : List Call) :
    (check_alerts act aad threshold curr new_calls).countP
        (fun al => al == volume_alert curr.length)
      = if curr.length ≥ threshold then 1 else 0 := by
  unfold check_alerts
  rw [List.countP_append]
  have hflat : (new_calls.flatMap (fun call =>
      type_rule_alerts act call ++ address_rule_alerts aad call)).countP
        (fun al => al == volume_alert curr.length) = 0 := by
    rw [List.countP_eq_zero]
    intro al hal
    obtain ⟨c, hc, hal2⟩ := List.mem_flatMap.1 hal
    simpa using record_alert_ne_volume act aad c curr.length al hal2
  rw [hflat]
  by_cases h : curr.length ≥ threshold
  · rw [if_pos h, if_pos h]
    simp
  · rw [if_neg h, if_neg h]
    simp

theorem check_alerts_head_volume (act aad : List String) (threshold : Nat)
    (curr new_calls : List Call) (h : curr.length ≥ threshold) :
    (check_alerts act aad threshold curr new_calls).head?
      = some (volume_alert curr.length) := by
  unfold check_alerts
  rw [if_pos h]
  rfl

/-- C7: the standalone alert entry point delivers exactly the first 5 of
check_alerts' output (so at most 5 notifications, in evaluation order:
the volume alert first, then per-record alerts in record order, the rest
silently dropped); the volume alert occurs in that output exactly once
when the active-call count reaches the configured threshold (10) and
never otherwise, and when it fires it is the head of the output. -/
theorem alerts_capped_at_five (snap : SnapshotFile) :
    HIGH_VOLUME_THRESHOLD = 10 ∧
    alerts_main (some snap) = (check_alerts ALERT_CALL_TYPES ALERT_ADDRESSES
      HIGH_VOLUME_THRESHOLD snap.calls snap.calls).take 5 ∧
    (alerts_main (some snap)).length ≤ 5 ∧
    alerts_main (some snap) ++ (check_alerts ALERT_CALL_TYPES ALERT_ADDRESSES
        HIGH_VOLUME_THRESHOLD snap.calls snap.calls).drop 5
      = check_alerts ALERT_CALL_TYPES ALERT_ADDRESSES HIGH_VOLUME_THRESHOLD
          snap.calls snap.calls ∧
    (check_alerts ALERT_CALL_TYPES ALERT_ADDRESSES HIGH_VOLUME_THRESHOLD
        snap.calls snap.calls).countP
        (fun al => al == volume_alert snap.calls.length)
      = (if snap.calls.length ≥ HIGH_VOLUME_THRESHOLD then 1 else 0) ∧
    (snap.calls.length ≥ HIGH_VOLUME_THRESHOLD →
      (check_alerts ALERT_CALL_TYPES ALERT_ADDRESSES HIGH_VOLUME_THRESHOLD
        snap.calls snap.calls).head? = some (volume_alert snap.calls.length)) := by
  refine ⟨rfl, rfl, ?_, ?_, ?_, ?_⟩
  · exact List.length_take_le 5 _
  · exact List.take_append_drop 5 _
  · exact check_alerts_volume_count _ _ _ _ _
  · exact check_alerts_head_volume _ _ _ _ _

/-- C7 witness: a snapshot of 12 active calls; the threshold hypothesis
holds and the volume alert heads the evaluator's output. -/
theorem alerts_capped_at_five_witness :
    ((SnapshotFile.mk
        (List.replicate 12 (Call.mk (some "I") (some "X") (some "Y") none))
        none 12).calls.length ≥ HIGH_VOLUME_THRESHOLD) ∧
    (check_alerts ALERT_CALL_TYPES ALERT_ADDRESSES HIGH_VOLUME_THRESHOLD
        (SnapshotFile.mk
          (List.replicate 12 (Call.mk (some "I") (some "X") (some "Y") none))
          none 12).calls
        (SnapshotFile.mk
          (List.replicate 12 (Call.mk (some "I") (some "X") (some "Y") none))
          none 12).calls).head?
      = some (volume_alert (SnapshotFile.mk
          (List.replicate 12 (Call.mk (some "I") (some "X") (some "Y") none))
          none 12).calls.length) :=
  ⟨by decide,
   (alerts_capped_at_five (SnapshotFile.mk
      (List.replicate 12 (Call.mk (some "I") (some "X") (some "Y") none))
      none 12)).2.2.2.2.2 (by decide)⟩

/-! ## C1: behaviour of main on fetch failure -/

/-- C1 counterexample: on a first run (no files exist) with a failing
fetch, main still creates the historical log file with its banner before
inspecting the fetch result, so the historical log is not left
untouched. -/
theorem fetch_failure_touches_log_on_first_run :
    (main_run ApiResponse.error "T0" "2024-01-01"
        (FS.mk none none [] none)).1.historical_log
      ≠ (FS.mk none none [] none).historical_log := by
  decide

/-- C1 (amended): on any transport or malformed-JSON error the Fetcher
returns the failure value None, and main exits with code 1 leaving the
snapshot, archive, and stats files untouched and the historical log
unchanged except that, when the log file did not yet exist, it has been
created with the header banner (that write precedes the fetch check in
main). -/
theorem fetch_failure_aborts_run (ts ds : String) (fs : FS) :
    fetch_active_calls ApiResponse.error = none ∧
    main_run ApiResponse.error ts ds fs =
      ({ fs with historical_log := some (fs.historical_log.getD (log_banner ts)) }, 1) := by
  refine ⟨rfl, ?_⟩
  unfold main_run
  rcases h : fs.historical_log with _ | s
  · simp [fetch_active_calls, h]
  · simp [fetch_active_calls, h]
    rw [← h]

end ActiveCalls
